import Mathlib

/-!
Shallow embedding of `src/MacOS_Collector.py` (Forensic Sparsebundle
Creator) and verification of its specification claims.

Modelling conventions:
* Filesystem lookups (`os.path.isfile`, `os.path.getsize`, `os.walk`,
  `os.path.exists`) are embedded as data: a selection is a list of items
  carrying the answers the OS would give for them.
* External commands (`hdiutil`, `ditto`) are modelled by boolean oracles
  giving their success or failure; `calculate_hash`, which returns a hex
  digest or Python `None` on any error, is modelled as `Option String`.
* Python float arithmetic in `estimate_size_needed` is modelled exactly
  over the rationals, with the literal `1.1` taken as `11/10`; Python
  `int()` on a non-negative value is the floor, i.e. `Nat` division.
* `plistlib.dump` raises `TypeError` on a Python `None` value, so a hash
  log containing a `None` digest makes the report write fail
  deterministically (the exception is caught at src line 305, before the
  text report block); `logSerializable` captures this, and oracle
  booleans only cover the genuinely environmental failure modes.
-/

set_option autoImplicit false

mutual
/-- A filesystem entry as seen by `estimate_size_needed`: a regular file
with a byte size (`os.path.getsize`), a directory with its children
(walked recursively by `os.walk`), or anything else (missing path, broken
symlink, unreadable entry) which contributes nothing to the total. -/
inductive FSEntry : Type where
  | file : Nat → FSEntry
  | dir : FSForest → FSEntry
  | other : FSEntry
inductive FSForest : Type where
  | nil : FSForest
  | cons : FSEntry → FSForest → FSForest
end

mutual
/-- Total bytes of regular files reachable under one entry, as summed by
the loop in `estimate_size_needed` (files add their size, directories are
walked recursively, everything else adds nothing). -/
def FSEntry.bytes : FSEntry → Nat
  | .file s => s
  | .dir f => f.bytes
  | .other => 0
def FSForest.bytes : FSForest → Nat
  | .nil => 0
  | .cons e f => e.bytes + f.bytes
end

/-- Sum of `FSEntry.bytes` over the selected top-level paths. -/
def totalBytes : List FSEntry → Nat
  | [] => 0
  | e :: es => e.bytes + totalBytes es

/-- Embeds `estimate_size_needed` (src lines 228-253):
`size_mb = int((total_size / (1024 * 1024)) * 1.1)` followed by
`size_mb = max(size_mb, 100)`.  Over exact rationals
`int(total/2^20 * 11/10)` is `⌊total * 11 / (10 * 2^20)⌋`, which is `Nat`
division. -/
def estimate_size_needed (paths : List FSEntry) : Nat :=
  max (totalBytes paths * 11 / (10 * 1024 * 1024)) 100

/-- One entry of the in-memory `hash_log` that `copy_with_metadata`
appends (src lines 153-160): source path, the `destination` argument,
both digests (`None` on hashing failure), and a timestamp string. -/
structure CopyRecord where
  source_path : String
  destination_path : String
  sha256_source : Option String
  sha256_destination : Option String
  timestamp : String
deriving DecidableEq

/-- What `os.path.isfile` / `os.path.isdir` answer for a selected path:
a regular file, a directory, or neither (deleted path, broken symlink,
special file). -/
inductive FKind where
  | file
  | dir
  | other
deriving DecidableEq

/-- A selected source path together with the answers the OS gives for it
during `copy_with_metadata`: its kind, whether the `ditto` copy command
succeeds, the two `calculate_hash` results (`none` models the `None`
returned on any hashing error), and the timestamp taken when the record
is built. -/
structure FileItem where
  path : String
  kind : FKind
  copySucceeds : Bool
  sourceHash : Option String
  destHash : Option String
  time : String
deriving DecidableEq

/-- Result of one `copy_with_metadata` call: the returned boolean, the
hash log after the call, and whether a `ditto` copy command was invoked
at all. -/
structure CopyResult where
  ok : Bool
  log : List CopyRecord
  dittoInvoked : Bool
deriving DecidableEq

/-- The `hash_entry` dict built at src lines 153-159. -/
def mkRecord (source : FileItem) (destination : String) : CopyRecord :=
  ⟨source.path, destination, source.sourceHash, source.destHash, source.time⟩

/-- Embeds `copy_with_metadata` (src lines 137-185).  For a regular file:
run `ditto`; on success append a `CopyRecord` and return `False` exactly
when the two digests differ (Python `!=` on `Optional[str]`), on command
failure return `False` without appending.  For a directory: run `ditto`
and return its success, never touching the hash log.  For anything else
neither branch fires and the function returns `True`. -/
def copy_with_metadata (source : FileItem) (destination : String)
    (hash_log : List CopyRecord) : CopyResult :=
  match source.kind with
  | FKind.file =>
    if source.copySucceeds then
      let log := hash_log ++ [mkRecord source destination]
      if source.sourceHash ≠ source.destHash then ⟨false, log, true⟩
      else ⟨true, log, true⟩
    else ⟨false, hash_log, true⟩
  | FKind.dir =>
    if source.copySucceeds then ⟨true, hash_log, true⟩ else ⟨false, hash_log, true⟩
  | FKind.other => ⟨true, hash_log, false⟩

/-- The boolean `copy_with_metadata` returns for an item. -/
def itemOk (it : FileItem) : Bool :=
  match it.kind with
  | FKind.file => it.copySucceeds && decide (it.sourceHash = it.destHash)
  | FKind.dir => it.copySucceeds
  | FKind.other => true

/-- The records one item contributes to the hash log: exactly one for a
regular file whose `ditto` command succeeded, none otherwise. -/
def itemRecords (destination : String) (it : FileItem) : List CopyRecord :=
  match it.kind with
  | FKind.file => if it.copySucceeds then [mkRecord it destination] else []
  | _ => []

/-- The fixed mount point used by `mount_sparsebundle` (src line 118). -/
def mount_point : String := "/Volumes/ForensicData"

/-- The directory inside the mounted container that `main` passes as the
`destination` of every copy (src line 363). -/
def files_dir : String := mount_point ++ "/copied_files"

/-- The copy loop of `main` (src lines 367-372): starts with
`hash_log = []` and `success = True`, calls `copy_with_metadata` for every
selected path, clearing `success` on each `False` return and never
stopping early. -/
def copyLoop (items : List FileItem) (destination : String)
    (hash_log : List CopyRecord) (success : Bool) : Bool × List CopyRecord :=
  match items with
  | [] => (success, hash_log)
  | it :: rest =>
    let r := copy_with_metadata it destination hash_log
    copyLoop rest destination r.log (success && r.ok)

/-- Whether every selected item's `copy_with_metadata` call returned
`True`. -/
def allOk : List FileItem → Bool
  | [] => true
  | it :: rest => itemOk it && allOk rest

/-- The hash log the copy loop accumulates: the concatenation of each
item's contributed records, in selection order. -/
def recordsOf (destination : String) : List FileItem → List CopyRecord
  | [] => []
  | it :: rest => itemRecords destination it ++ recordsOf destination rest

/-- Result of `create_sparsebundle` (src lines 91-112): the returned
success flag, the derived `sparsebundle_path`, and whether the
`hdiutil create` command was invoked. -/
structure CreateResult where
  success : Bool
  path : String
  invoked : Bool
deriving DecidableEq

/-- The container path `create_sparsebundle` derives (src line 95). -/
def sparsebundle_path (destination bundleName : String) : String :=
  destination ++ "/" ++ bundleName ++ ".sparsebundle"

/-- Embeds `create_sparsebundle` (src lines 91-112): if something already
exists at the derived path (`os.path.exists`, answered by the oracle
`fs_exists`) it returns `False` at once; otherwise it runs
`hdiutil create` and returns that command's success.  `size_mb` only
parametrises the command line. -/
def create_sparsebundle (fs_exists : String → Bool) (cmdOk : Bool)
    (destination bundleName : String) (size_mb : Nat) : CreateResult :=
  let p := sparsebundle_path destination bundleName
  if fs_exists p then ⟨false, p, false⟩
  else ⟨cmdOk, p, true⟩

/-- Observable stage events of one run of `main`, in the order `main`
performs them.  `Event.report` marks the invocation of
`create_verification_report` (src line 375); `Event.copyAttempt p` marks
the `copy_with_metadata` call for selected path `p`. -/
inductive Event where
  | create
  | mount
  | copyAttempt (path : String)
  | report
  | unmount
deriving DecidableEq

/-- One run's environment: every answer the OS and the operator give to
`main` (src lines 308-393).  `selected` is the confirmed selection as
`copy_with_metadata` sees it; `selectedSizes` is the same selection as
`estimate_size_needed` sees it.  `reportSysInfoFails` models an exception
from the `subprocess.check_output` calls at src lines 266-268, which is
raised before `create_verification_report`'s own `try` block and so
propagates to `main`'s top-level handler; `reportFileWriteFails` models
an exception while writing the two report files, which the `except` at
src line 305 swallows. -/
structure RunEnv where
  platform_darwin : Bool
  selected : List FileItem
  selectedSizes : List FSEntry
  destinationChosen : Bool
  fs_exists : String → Bool
  createCmdOk : Bool
  destination : String
  bundleName : String
  mountSucceeds : Bool
  reportSysInfoFails : Bool
  reportFileWriteFails : Bool
  unmountSucceeds : Bool

/-- Outcome of the `create_verification_report` call (src lines 255-306):
`raised` when gathering system info throws (the exception escapes the
function), `writeFailed` when writing the report files throws (caught and
only logged inside the function), `ok` otherwise. -/
inductive ReportOutcome where
  | ok
  | writeFailed
  | raised
deriving DecidableEq

/-- Whether one `hash_entry` can be serialised by `plistlib.dump`: it can
iff neither digest is the Python `None` failure value (`plistlib` raises
`TypeError` on `None`). -/
def recordSerializable (r : CopyRecord) : Bool :=
  r.sha256_source.isSome && r.sha256_destination.isSome

/-- Whether a whole hash log survives `plistlib.dump` (src line 275):
every record must be free of `None` digests. -/
def logSerializable : List CopyRecord → Bool
  | [] => true
  | r :: rs => recordSerializable r && logSerializable rs

/-- Which of the three outcomes `create_verification_report` has: the
system-info `subprocess` calls run first and their exception escapes;
then `plistlib.dump` deterministically raises `TypeError` if the hash log
holds any `None` digest (caught at src line 305, before the text report
block, so neither artifact is written); an environmental I/O failure
while writing is the remaining caught case. -/
def report_outcome (sysInfoFails fileWriteFails : Bool)
    (hash_log : List CopyRecord) : ReportOutcome :=
  if sysInfoFails then ReportOutcome.raised
  else if logSerializable hash_log = false then ReportOutcome.writeFailed
  else if fileWriteFails then ReportOutcome.writeFailed
  else ReportOutcome.ok

/-- The `create_sparsebundle` call `main` makes (src line 344), with the
size from `estimate_size_needed` and the timestamped bundle name. -/
def createRes (env : RunEnv) : CreateResult :=
  create_sparsebundle env.fs_exists env.createCmdOk env.destination
    env.bundleName (estimate_size_needed env.selectedSizes)

/-- The copy-attempt events of a run, one per selected path in order. -/
def copyEvents (items : List FileItem) : List Event :=
  items.map (fun it => Event.copyAttempt it.path)

/-- The events of a run that reaches the copy stage, up to and including
the report step. -/
def evs (env : RunEnv) : List Event :=
  Event.create :: Event.mount :: (copyEvents env.selected ++ [Event.report])

/-- Embeds `main` (src lines 308-393): exit code and the sequence of
stage events.  Early returns: not on macOS, empty selection, no
destination chosen, `create_sparsebundle` failed, mount failed.  After a
successful mount the copy loop runs over every selected path, then
`create_verification_report` is invoked unconditionally; an exception
from its system-info gathering propagates to the top-level handler
(returning 1 before unmount is reached), a failure writing the report
files is swallowed; then unmount runs, its failure forcing exit 1;
otherwise the exit code reflects the aggregated copy success. -/
def main_run (env : RunEnv) : Nat × List Event :=
  if env.platform_darwin = false then (1, [])
  else if env.selected.isEmpty then (1, [])
  else if env.destinationChosen = false then (1, [])
  else if (createRes env).success = false then (1, [Event.create])
  else if env.mountSucceeds = false then (1, [Event.create, Event.mount])
  else
    let copied := copyLoop env.selected files_dir [] true
    if env.reportSysInfoFails then (1, evs env)
    else if env.unmountSucceeds = false then (1, evs env ++ [Event.unmount])
    else if copied.1 then (0, evs env ++ [Event.unmount])
    else (1, evs env ++ [Event.unmount])

/-- A run reaches the copy stage when the platform check, selection,
destination choice, container creation and mount all pass. -/
def reachesCopy (env : RunEnv) : Prop :=
  env.platform_darwin = true ∧ env.selected.isEmpty = false ∧
  env.destinationChosen = true ∧ (createRes env).success = true ∧
  env.mountSucceeds = true

instance (env : RunEnv) : Decidable (reachesCopy env) := by
  unfold reachesCopy
  infer_instance

/-- One record as rendered into `verification_report.txt`
(src lines 295-301): the four stored fields plus the `Match:` boolean
computed as `entry['sha256_source'] == entry['sha256_destination']`. -/
structure RenderedRecord where
  source_path : String
  destination_path : String
  sha256_source : Option String
  sha256_destination : Option String
  matched : Bool
  timestamp : String
deriving DecidableEq

/-- Rendering of one `CopyRecord` into the text report. -/
def renderRecord (r : CopyRecord) : RenderedRecord :=
  ⟨r.source_path, r.destination_path, r.sha256_source, r.sha256_destination,
    decide (r.sha256_source = r.sha256_destination), r.timestamp⟩

/-- The audit content both report artifacts carry (src lines 261-301):
run timestamp, container path, tool version, system info, and the full
ordered record sequence. -/
structure Report where
  run_timestamp : String
  sparsebundle_path : String
  tool_version : String
  system_info : String
  records : List RenderedRecord
deriving DecidableEq

/-- Embeds the content `create_verification_report` writes
(src lines 255-303) as a function of the run timestamp, the gathered
system info, the container path and the hash log. -/
def create_verification_report_content (now system_info sbpath : String)
    (hash_log : List CopyRecord) : Report :=
  ⟨now, sbpath, "Forensic Sparsebundle Creator 1.0.0", system_info,
    hash_log.map renderRecord⟩

/-- What one `create_verification_report` call actually leaves on disk:
both artifacts with the content of `create_verification_report_content`
when its outcome is `ok`, nothing otherwise (a raised system-info
exception happens before any write; a `plistlib` `TypeError` or an I/O
failure aborts the `try` block before the artifacts are complete). -/
def written_report (sysInfoFails fileWriteFails : Bool)
    (now system_info sbpath : String) (hash_log : List CopyRecord) :
    Option Report :=
  match report_outcome sysInfoFails fileWriteFails hash_log with
  | ReportOutcome.ok =>
    some (create_verification_report_content now system_info sbpath hash_log)
  | _ => none

/-- The hash log a run's copy loop hands to the report step. -/
def runLog (env : RunEnv) : List CopyRecord :=
  (copyLoop env.selected files_dir [] true).2

/-- The report a run leaves inside the container, as a function of the
run timestamp and gathered system info. -/
def runReport (env : RunEnv) (now system_info : String) : Option Report :=
  written_report env.reportSysInfoFails env.reportFileWriteFails
    now system_info (createRes env).path (runLog env)

/-- Example run for C2: three selected regular files, the second one's
`ditto` command fails, the other two copy with matching digests. -/
def envPartialFailure : RunEnv :=
  ⟨true,
   [⟨"/Users/op/a.txt", FKind.file, true, some "aa11", some "aa11", "t1"⟩,
    ⟨"/Users/op/b.txt", FKind.file, false, some "bb22", some "bb22", "t2"⟩,
    ⟨"/Users/op/c.txt", FKind.file, true, some "cc33", some "cc33", "t3"⟩],
   [FSEntry.file 7, FSEntry.file 7, FSEntry.file 7],
   true, fun _ => false, true, "/Users/op/dest", "ForensicData_20260101_000000",
   true, false, false, true⟩

/-- Example run for C3: every stage succeeds except writing the two
report files, which fails. -/
def envReportWriteFail : RunEnv :=
  ⟨true,
   [⟨"/Users/op/a.txt", FKind.file, true, some "aa11", some "aa11", "t1"⟩],
   [FSEntry.file 7],
   true, fun _ => false, true, "/Users/op/dest", "ForensicData_20260101_000001",
   true, false, true, true⟩

/-- Example run for C5: a single selected regular file whose source and
destination digests differ. -/
def envMismatch : RunEnv :=
  ⟨true,
   [⟨"/Users/op/m.txt", FKind.file, true, some "aa11", some "bb22", "t1"⟩],
   [FSEntry.file 7],
   true, fun _ => false, true, "/Users/op/dest", "ForensicData_20260101_000002",
   true, false, false, true⟩

/-- The single selected item of `envMismatch`. -/
def itMismatch : FileItem :=
  ⟨"/Users/op/m.txt", FKind.file, true, some "aa11", some "bb22", "t1"⟩

/-- Example run for C6: reaches the copy stage; one copy fails and the
unmount fails, exercising the report step's position in the trace. -/
def envReportOrder : RunEnv :=
  ⟨true,
   [⟨"/Users/op/a.txt", FKind.file, true, some "aa11", some "aa11", "t1"⟩,
    ⟨"/Users/op/b.txt", FKind.file, false, some "bb22", some "bb22", "t2"⟩],
   [FSEntry.file 7, FSEntry.file 7],
   true, fun _ => false, true, "/Users/op/dest", "ForensicData_20260101_000003",
   true, false, false, false⟩

/-- Example run for C9: the user confirmed an empty selection. -/
def envEmptySelection : RunEnv :=
  ⟨true, [], [], true, fun _ => false, true, "/Users/op/dest",
   "ForensicData_20260101_000004", true, false, false, true⟩

/-- A selected regular file that copies successfully but for which
`calculate_hash` fails on both the source and the destination. -/
def itDoubleHashFail : FileItem :=
  ⟨"/Users/op/x.bin", FKind.file, true, none, none, "t9"⟩

/-- Example run for C6: reaches the copy stage with every oracle
cooperative, but the single copied file's two digests are both `None`,
so the hash log cannot be serialised by `plistlib`. -/
def envNoneDigest : RunEnv :=
  ⟨true, [itDoubleHashFail], [FSEntry.file 7],
   true, fun _ => false, true, "/Users/op/dest", "ForensicData_20260101_000005",
   true, false, false, true⟩

/-- Characterisation of one `copy_with_metadata` call: the returned
boolean is `itemOk`, the log grows by `itemRecords`, and `ditto` is
invoked unless the path is neither file nor directory. -/
theorem copy_with_metadata_eq (it : FileItem) (destination : String)
    (hash_log : List CopyRecord) :
    copy_with_metadata it destination hash_log =
      ⟨itemOk it, hash_log ++ itemRecords destination it,
        decide (it.kind ≠ FKind.other)⟩ := by
  cases hk : it.kind <;>
    simp [copy_with_metadata, itemOk, itemRecords, hk] <;>
    cases hc : it.copySucceeds <;>
    simp <;>
    by_cases hh : it.sourceHash = it.destHash <;>
    simp [hh]

/-- Characterisation of the copy loop: it processes every item (no early
exit), the final flag is the conjunction of all per-item results, and the
final log is the initial log followed by every item's records. -/
theorem copyLoop_eq (items : List FileItem) (destination : String)
    (hash_log : List CopyRecord) (success : Bool) :
    copyLoop items destination hash_log success =
      (success && allOk items, hash_log ++ recordsOf destination items) := by
  induction items generalizing hash_log success with
  | nil => simp [copyLoop, allOk, recordsOf]
  | cons it rest ih =>
    simp [copyLoop, allOk, recordsOf, copy_with_metadata_eq, ih,
      Bool.and_assoc, List.append_assoc]

/-- A CopyRecord is in the loop's log for every selected regular file
whose copy command succeeded, regardless of the outcome of other items. -/
theorem mkRecord_mem_recordsOf (destination : String) (items : List FileItem)
    (it : FileItem) (hmem : it ∈ items) (hk : it.kind = FKind.file)
    (hc : it.copySucceeds = true) :
    mkRecord it destination ∈ recordsOf destination items := by
  induction items with
  | nil => cases hmem
  | cons hd tl ih =>
    rcases List.mem_cons.mp hmem with h | h
    · subst h
      simp [recordsOf, itemRecords, hk, hc]
    · simp [recordsOf]
      exact Or.inr (ih h)

/-- If some item's call returned `False`, the loop's aggregate flag is
`False`. -/
theorem allOk_eq_false_of_mem (items : List FileItem) (it : FileItem)
    (hmem : it ∈ items) (hbad : itemOk it = false) :
    allOk items = false := by
  induction items with
  | nil => cases hmem
  | cons hd tl ih =>
    rcases List.mem_cons.mp hmem with h | h
    · subst h
      simp [allOk, hbad]
    · simp [allOk, ih h]

/-- Shape of `main_run` for every run that reaches the copy stage. -/
theorem main_run_reaches (env : RunEnv) (h : reachesCopy env) :
    main_run env =
      (if env.reportSysInfoFails then (1, evs env)
       else if env.unmountSucceeds = false then (1, evs env ++ [Event.unmount])
       else if allOk env.selected then (0, evs env ++ [Event.unmount])
       else (1, evs env ++ [Event.unmount])) := by
  obtain ⟨h1, h2, h3, h4, h5⟩ := h
  simp [main_run, h1, h2, h3, h4, h5, copyLoop_eq]

/-- Whenever a run reaches the copy stage and some item's copy call
returned `False`, the exit code is 1. -/
theorem exit_one_of_copy_failed (env : RunEnv) (h : reachesCopy env)
    (hfail : allOk env.selected = false) : (main_run env).1 = 1 := by
  rw [main_run_reaches env h]
  cases hsi : env.reportSysInfoFails <;>
    cases hum : env.unmountSucceeds <;>
    simp [hfail]

/-- A log is serialisable iff both of its parts are. -/
theorem logSerializable_append (l1 l2 : List CopyRecord) :
    logSerializable (l1 ++ l2) = (logSerializable l1 && logSerializable l2) := by
  induction l1 with
  | nil => simp [logSerializable]
  | cons r rs ih => simp [logSerializable, ih, Bool.and_assoc]

/-- A hash log containing a record with a `None` digest is never
serialisable, so `written_report` yields nothing for it. -/
theorem written_report_none_of_unserializable (sysInfoFails fileWriteFails : Bool)
    (now system_info sbpath : String) (hash_log : List CopyRecord)
    (h : logSerializable hash_log = false) :
    written_report sysInfoFails fileWriteFails now system_info sbpath hash_log
      = none := by
  cases hs : sysInfoFails <;> simp [written_report, report_outcome, h, hs]

/-- C1: the claim as written fails: `estimate_size_needed` truncates the
buffered size instead of rounding it up.  For a single selected file of
157810688 bytes (exactly 150.5 MiB) the exact buffered size is 165.55 MB,
whose ceiling is 166, but the function returns 165 — so the output is not
`≥ ceil(1.1 × total_bytes / 1 MiB)`. -/
theorem estimate_size_ceil_counterexample :
    estimate_size_needed [FSEntry.file 157810688] = 165 ∧
    (157810688 * 11 + (10 * 1024 * 1024 - 1)) / (10 * 1024 * 1024) = 166 ∧
    estimate_size_needed [FSEntry.file 157810688] < 166 := by
  refine ⟨?_, ?_, ?_⟩ <;> decide

/-- C1 (amended): for every selection, `estimate_size_needed` returns at
least 100 and at least `⌊1.1 × total_bytes / 1 MiB⌋` (the code truncates
the buffered size rather than rounding it up). -/
theorem estimate_size_lower_bounds (paths : List FSEntry) :
    100 ≤ estimate_size_needed paths ∧
    totalBytes paths * 11 / (10 * 1024 * 1024) ≤ estimate_size_needed paths := by
  exact ⟨Nat.le_max_right _ _, Nat.le_max_left _ _⟩

/-- C2: the claim as written fails: a failed copy attempt appends no
`CopyRecord` (src lines 144-168 only build `hash_entry` when the `ditto`
command succeeded).  In a run with 3 selected files where exactly the
second one's copy fails, the hash log passed to the report has only 2
records, not one per selected file, although the exit code is 1. -/
theorem partial_failure_counterexample :
    envPartialFailure.selected.length = 3 ∧
    (copyLoop envPartialFailure.selected files_dir [] true).2.length = 2 ∧
    (main_run envPartialFailure).1 = 1 := by
  refine ⟨rfl, ?_, ?_⟩ <;> decide

/-- C2 (amended): in every run that reaches the copy stage in which some
copy call fails, every remaining item is still processed — the hash log
is exactly the concatenation of per-item records, so each successfully
copied regular file keeps its record regardless of other items' failures
— failed attempts append no record, and the process exits non-zero. -/
theorem partial_failure_behavior (env : RunEnv) (h : reachesCopy env)
    (hfail : allOk env.selected = false) :
    (copyLoop env.selected files_dir [] true).2 = recordsOf files_dir env.selected ∧
    (∀ it ∈ env.selected, it.kind = FKind.file → it.copySucceeds = true →
      mkRecord it files_dir ∈ (copyLoop env.selected files_dir [] true).2) ∧
    (main_run env).1 ≠ 0 := by
  refine ⟨by simp [copyLoop_eq], ?_, ?_⟩
  · intro it hmem hk hc
    simp only [copyLoop_eq, List.nil_append]
    exact mkRecord_mem_recordsOf files_dir env.selected it hmem hk hc
  · simp [exit_one_of_copy_failed env h hfail]

/-- C2 witness: `envPartialFailure` reaches the copy stage with a failing
item, and the amended theorem applies to it. -/
theorem partial_failure_behavior_witness :
    reachesCopy envPartialFailure ∧
    allOk envPartialFailure.selected = false ∧
    (main_run envPartialFailure).1 ≠ 0 :=
  ⟨by decide, by decide,
    (partial_failure_behavior envPartialFailure (by decide) (by decide)).2.2⟩

/-- C3: the claim as written fails: a failure while writing the report
files is caught inside `create_verification_report` (src line 305) and
`main` never checks it, so a run in which everything else succeeds but
the report write fails still exits 0. -/
theorem report_write_failure_exit_zero :
    report_outcome envReportWriteFail.reportSysInfoFails
        envReportWriteFail.reportFileWriteFails (runLog envReportWriteFail)
      = ReportOutcome.writeFailed ∧
    runReport envReportWriteFail "t" "si" = none ∧
    (main_run envReportWriteFail).1 = 0 := by
  refine ⟨by decide, by decide, by decide⟩

/-- C3 (amended): the exit status is zero iff the platform check,
selection, destination choice, container creation, mount, report
system-info gathering, unmount and every copy call all succeeded; a
failure writing the report files is swallowed and never affects the exit
status. -/
theorem exit_zero_iff (env : RunEnv) :
    (main_run env).1 = 0 ↔
      (env.platform_darwin = true ∧ env.selected.isEmpty = false ∧
       env.destinationChosen = true ∧ (createRes env).success = true ∧
       env.mountSucceeds = true ∧ env.reportSysInfoFails = false ∧
       env.unmountSucceeds = true ∧ allOk env.selected = true) := by
  cases h1 : env.platform_darwin <;>
    cases h2 : env.selected.isEmpty <;>
    cases h3 : env.destinationChosen <;>
    cases h4 : (createRes env).success <;>
    cases h5 : env.mountSucceeds <;>
    cases h6 : env.reportSysInfoFails <;>
    cases h7 : env.unmountSucceeds <;>
    cases h8 : allOk env.selected <;>
    simp_all [main_run, copyLoop_eq]

/-- C4: the claim as written fails in its reporting part: for a record
with two `None` digests the item is indeed reported successful with
equal digests, but `plistlib.dump` raises `TypeError` on the `None`
values (caught at src line 305) before the text report block runs, so no
report artifact is written at all — with both oracles cooperative, the
text report never renders `Match: True` for it. -/
theorem double_hash_failure_counterexample :
    copy_with_metadata itDoubleHashFail files_dir [] =
      ⟨true, [mkRecord itDoubleHashFail files_dir], true⟩ ∧
    written_report false false "t" "si" "/Users/op/dest/sb.sparsebundle"
      [mkRecord itDoubleHashFail files_dir] = none := by
  refine ⟨by decide, by decide⟩

/-- C4 (amended): if `calculate_hash` fails for both the source and the
destination of a copied regular file, `copy_with_metadata` appends a
`CopyRecord` whose two digests compare equal and reports the item as
successful, so the failure never affects the run's status; however such a
record makes the hash log unserialisable, `plistlib.dump` raises
`TypeError` (caught and only logged), and no report artifact — hence no
`Match: True` line — is ever produced for any report-step outcome. -/
theorem double_hash_failure_no_report (it : FileItem) (dest : String)
    (log : List CopyRecord) (sysInfoFails fileWriteFails : Bool)
    (now system_info sbpath : String) (hk : it.kind = FKind.file)
    (hc : it.copySucceeds = true) (hs : it.sourceHash = none)
    (hd : it.destHash = none) :
    copy_with_metadata it dest log = ⟨true, log ++ [mkRecord it dest], true⟩ ∧
    (mkRecord it dest).sha256_source = (mkRecord it dest).sha256_destination ∧
    written_report sysInfoFails fileWriteFails now system_info sbpath
      (log ++ [mkRecord it dest]) = none := by
  have hlog : logSerializable (log ++ [mkRecord it dest]) = false := by
    simp [logSerializable_append, logSerializable, recordSerializable,
      mkRecord, hs]
  refine ⟨?_, ?_, ?_⟩
  · simp [copy_with_metadata, hk, hc, hs, hd]
  · simp [mkRecord, hs, hd]
  · exact written_report_none_of_unserializable sysInfoFails fileWriteFails
      now system_info sbpath (log ++ [mkRecord it dest]) hlog

/-- C4 witness at a concrete item with both hash calls failing. -/
theorem double_hash_failure_no_report_witness :
    copy_with_metadata itDoubleHashFail files_dir [] =
      ⟨true, [] ++ [mkRecord itDoubleHashFail files_dir], true⟩ ∧
    (mkRecord itDoubleHashFail files_dir).sha256_source =
      (mkRecord itDoubleHashFail files_dir).sha256_destination ∧
    written_report false false "t" "si" "/Users/op/dest/other.sparsebundle"
      ([] ++ [mkRecord itDoubleHashFail files_dir]) = none :=
  double_hash_failure_no_report itDoubleHashFail files_dir [] false false
    "t" "si" "/Users/op/dest/other.sparsebundle" rfl rfl rfl rfl

/-- C5: whenever a copied file's source digest differs from its
destination digest, `copy_with_metadata` appends the record and returns
`False`, the loop still processes every other item (the final log is the
full concatenation of per-item records), and the run exits non-zero. -/
theorem digest_mismatch_marked_failed (env : RunEnv) (it : FileItem)
    (log : List CopyRecord) (h : reachesCopy env) (hmem : it ∈ env.selected)
    (hk : it.kind = FKind.file) (hc : it.copySucceeds = true)
    (hne : it.sourceHash ≠ it.destHash) :
    copy_with_metadata it files_dir log =
      ⟨false, log ++ [mkRecord it files_dir], true⟩ ∧
    (copyLoop env.selected files_dir [] true).2 = recordsOf files_dir env.selected ∧
    (main_run env).1 ≠ 0 := by
  have hbad : itemOk it = false := by simp [itemOk, hk, hc, hne]
  refine ⟨by simp [copy_with_metadata, hk, hc, hne], by simp [copyLoop_eq], ?_⟩
  have := exit_one_of_copy_failed env h (allOk_eq_false_of_mem env.selected it hmem hbad)
  simp [this]

/-- C5 witness: a concrete run with one mismatching file. -/
theorem digest_mismatch_witness :
    reachesCopy envMismatch ∧ itMismatch ∈ envMismatch.selected ∧
    (main_run envMismatch).1 ≠ 0 :=
  ⟨by decide, by decide,
    (digest_mismatch_marked_failed envMismatch itMismatch [] (by decide)
      (by decide) rfl rfl (by decide)).2.2⟩

/-- C6: the claim as written fails in its "written" part: `envNoneDigest`
reaches the copy stage with every oracle cooperative (system info and
file I/O both fine), yet the copied file's two `None` digests make the
hash log unserialisable, `plistlib.dump` raises `TypeError`, and neither
report artifact lands in the container. -/
theorem report_not_written_counterexample :
    reachesCopy envNoneDigest ∧
    envNoneDigest.reportSysInfoFails = false ∧
    envNoneDigest.reportFileWriteFails = false ∧
    runReport envNoneDigest "t" "si" = none := by
  refine ⟨by decide, rfl, rfl, by decide⟩

/-- C6 (amended): in every run that reaches the copy stage, the report
step is invoked exactly once, after every copy attempt and before any
unmount — the trace splits around a single `Event.report`, with no copy
attempt after it and no unmount before it, whatever the copy outcomes —
and both report artifacts land inside the still-mounted container at that
point iff system-info gathering succeeded, the file writes succeeded and
the hash log is `plistlib`-serialisable (no `None` digest). -/
theorem report_step_once_and_write_condition (env : RunEnv)
    (now system_info : String) (h : reachesCopy env) :
    (∃ tail, (main_run env).2 =
        (Event.create :: Event.mount :: copyEvents env.selected) ++
          Event.report :: tail ∧
      Event.report ∉ Event.create :: Event.mount :: copyEvents env.selected ∧
      Event.report ∉ tail ∧
      (∀ p, Event.copyAttempt p ∉ tail) ∧
      Event.unmount ∉ Event.create :: Event.mount :: copyEvents env.selected) ∧
    (runReport env now system_info =
        some (create_verification_report_content now system_info
          (createRes env).path (runLog env)) ↔
      (env.reportSysInfoFails = false ∧ env.reportFileWriteFails = false ∧
       logSerializable (runLog env) = true)) := by
  constructor
  · rw [main_run_reaches env h]
    have hpre : Event.report ∉ Event.create :: Event.mount :: copyEvents env.selected := by
      simp [copyEvents]
    have hunm : Event.unmount ∉ Event.create :: Event.mount :: copyEvents env.selected := by
      simp [copyEvents]
    cases hsi : env.reportSysInfoFails
    · cases hum : env.unmountSucceeds
      · exact ⟨[Event.unmount], by simp [evs], hpre, by simp, by simp, hunm⟩
      · cases hall : allOk env.selected <;>
          exact ⟨[Event.unmount], by simp [evs], hpre, by simp, by simp, hunm⟩
    · exact ⟨[], by simp [evs], hpre, by simp, by simp, hunm⟩
  · cases hs : env.reportSysInfoFails <;>
      cases hw : env.reportFileWriteFails <;>
      cases hl : logSerializable (runLog env) <;>
      simp [runReport, written_report, report_outcome, hs, hw, hl]

/-- C6 witness: a concrete run reaching the copy stage with one failing
copy, a serialisable log and a failing unmount. -/
theorem report_write_condition_witness :
    reachesCopy envReportOrder ∧
    ((∃ tail, (main_run envReportOrder).2 =
        (Event.create :: Event.mount :: copyEvents envReportOrder.selected) ++
          Event.report :: tail ∧
      Event.report ∉ Event.create :: Event.mount :: copyEvents envReportOrder.selected ∧
      Event.report ∉ tail ∧
      (∀ p, Event.copyAttempt p ∉ tail) ∧
      Event.unmount ∉ Event.create :: Event.mount :: copyEvents envReportOrder.selected) ∧
    (runReport envReportOrder "t" "si" =
        some (create_verification_report_content "t" "si"
          (createRes envReportOrder).path (runLog envReportOrder)) ↔
      (envReportOrder.reportSysInfoFails = false ∧
       envReportOrder.reportFileWriteFails = false ∧
       logSerializable (runLog envReportOrder) = true))) :=
  ⟨by decide,
    report_step_once_and_write_condition envReportOrder "t" "si" (by decide)⟩

/-- C7: for a source path that is neither an existing regular file nor an
existing directory, `copy_with_metadata` returns `True`, leaves the hash
log unchanged, and never invokes a copy command — the item contributes
neither a failure nor an audit record. -/
theorem nonfile_nondir_silently_succeeds (it : FileItem) (dest : String)
    (log : List CopyRecord) (h : it.kind = FKind.other) :
    copy_with_metadata it dest log = ⟨true, log, false⟩ := by
  simp [copy_with_metadata, h]

/-- C7 witness: a path deleted after selection. -/
theorem nonfile_nondir_witness :
    copy_with_metadata ⟨"/Users/op/gone.txt", FKind.other, true, none, none, "t0"⟩
        files_dir [] = ⟨true, [], false⟩ :=
  nonfile_nondir_silently_succeeds
    ⟨"/Users/op/gone.txt", FKind.other, true, none, none, "t0"⟩ files_dir [] rfl

/-- C8: if something already exists at the derived container path,
`create_sparsebundle` returns failure without invoking the
`hdiutil create` command, for every destination, name and size. -/
theorem create_no_overwrite (fs_exists : String → Bool) (cmdOk : Bool)
    (destination bundleName : String) (size_mb : Nat)
    (h : fs_exists (sparsebundle_path destination bundleName) = true) :
    create_sparsebundle fs_exists cmdOk destination bundleName size_mb =
      ⟨false, sparsebundle_path destination bundleName, false⟩ := by
  simp [create_sparsebundle, h]

/-- C8 witness: a filesystem on which every path exists. -/
theorem create_no_overwrite_witness :
    create_sparsebundle (fun _ => true) true "/Users/op/dest" "ForensicData_x" 100 =
      ⟨false, sparsebundle_path "/Users/op/dest" "ForensicData_x", false⟩ :=
  create_no_overwrite (fun _ => true) true "/Users/op/dest" "ForensicData_x" 100 rfl

/-- C9: a run whose selection is empty exits non-zero with an empty event
trace: no container is created, mounted or written to. -/
theorem empty_selection_aborts (env : RunEnv) (h : env.selected = []) :
    (main_run env).1 ≠ 0 ∧ (main_run env).2 = [] ∧
    Event.create ∉ (main_run env).2 ∧ Event.mount ∉ (main_run env).2 := by
  cases h1 : env.platform_darwin <;> simp [main_run, h, h1]

/-- C9 witness: a concrete run with an empty selection. -/
theorem empty_selection_witness :
    (main_run envEmptySelection).1 ≠ 0 ∧ (main_run envEmptySelection).2 = [] ∧
    Event.create ∉ (main_run envEmptySelection).2 ∧
    Event.mount ∉ (main_run envEmptySelection).2 :=
  empty_selection_aborts envEmptySelection rfl

/-- C10: the report's audit content is a function of the hash log alone:
two invocations with the same hash log but different run timestamps
produce identical rendered record sequences, namely the pointwise
rendering of the log. -/
theorem report_content_idempotent (t1 t2 system_info sbpath : String)
    (hash_log : List CopyRecord) :
    (create_verification_report_content t1 system_info sbpath hash_log).records =
      (create_verification_report_content t2 system_info sbpath hash_log).records ∧
    (create_verification_report_content t1 system_info sbpath hash_log).records =
      hash_log.map renderRecord :=
  ⟨rfl, rfl⟩
